import Mathlib

/-!
Verification development for the rss_feeder pipeline
(scheduler.py, rss_fetcher.py, validator.py, feed_manager.py, config.py).

Modelling conventions:
* Python ints are `Nat` (arbitrary precision, as in Python); intervals and
  jitter are `ℚ` (Python floats 0.8 / 1.2 are the exact rationals 4/5, 6/5).
* Python dicts keyed by strings are functions `String → Option _`.
* The sha256 hex digest used by `_is_duplicate` is an abstract parameter
  `h : String → String`.
* Raised Python exceptions are explicit `PyError` values threaded through
  return types; a raised error aborts the remainder of the Python function
  body while keeping the object mutations already performed.
* Wall-clock timestamps are opaque `String` / `ℚ` parameters.
-/

namespace RssFeeder

/-- config.py constants (Scheduler Settings block). -/
def MIN_POLL_INTERVAL : ℕ := 300

def MAX_POLL_INTERVAL : ℕ := 86400

def POLL_BACKOFF_FACTOR : ℕ := 2

def DEFAULT_FEED_INTERVAL : ℕ := 3600

def JITTER_SECONDS : ℕ := 30

/-- Point update of a string-keyed dict. -/
def setF {α : Type} (f : String → Option α) (k : String) (v : α) : String → Option α :=
  fun x => if x = k then some v else f x

/-- A raised Python exception, as relevant to these modules. -/
inductive PyError
  | typeError
  | nameError
deriving DecidableEq

/-- A raw feed entry as handed back by feedparser: dict probing with
`entry.get`, each field possibly absent. -/
structure Entry where
  title : Option String
  link : Option String
  published : Option String
  summary : Option String
  description : Option String
deriving DecidableEq

/-- The dict built by `RSSFetcher._create_article_dict`: all six keys present. -/
structure Article where
  title : String
  link : String
  published : String
  summary : String
  source : String
  timestamp : String
deriving DecidableEq

/-- The parse result of a 200 response body: `bozo` flag, entry list, and the
feed-level `updated_parsed` timestamp when the server advertises one. -/
structure ParsedFeed where
  bozo : Bool
  entries : List Entry
  updated_parsed : Option ℚ
deriving DecidableEq

/-- A record written through `FeedManager.update_feed_status`. -/
inductive RegUpdate
  | success (feed_name ts : String)
  | failure (feed_name ts : String) (error_count : ℕ)
deriving DecidableEq

/-- Combined mutable state of the `FeedScheduler` and its `RSSFetcher`
(dicts `feed_intervals`, `feed_errors`, the APScheduler job table keyed by
feed name, the fetcher dict `feed_state` of cached etag and last-modified
validators, activity counters, the `seen_urls` dedup set as the list of
hashes inserted so far, the articles handed to storage and Kafka, and the
sequence of registry status updates). -/
structure SysState where
  feed_intervals : String → Option ℚ
  feed_errors : String → Option ℕ
  jobs : String → Option ℚ
  feed_state : String → Option (String × String)
  successful_fetches : ℕ
  failed_fetches : ℕ
  seen_urls : List String
  published : List Article
  registry : List RegUpdate

/-- Validator.validate_article: `field in article and article[field]` over the
required fields, on a dict modelled as a string-keyed lookup. -/
def validate_article (article : String → Option String) : Bool :=
  ([ "title", "link", "published" ]).all fun f =>
    match article f with
    | some v => decide (v ≠ "")
    | none => false

/-- The dict view of an article built by `_create_article_dict`. -/
def article_lookup (a : Article) : String → Option String := fun k =>
  if k = "title" then some a.title
  else if k = "link" then some a.link
  else if k = "published" then some a.published
  else if k = "summary" then some a.summary
  else if k = "source" then some a.source
  else if k = "timestamp" then some a.timestamp
  else none

/-- RSSFetcher._create_article_dict: `entry.get` with empty-string defaults,
summary falling back to description. -/
def create_article_dict (entry : Entry) (feed_name now : String) : Article :=
  { title := entry.title.getD ""
    link := entry.link.getD ""
    published := entry.published.getD ""
    summary :=
      match entry.summary with
      | some s => s
      | none => entry.description.getD ""
    source := feed_name
    timestamp := now }

/-- RSSFetcher._is_duplicate: hash the url, membership test plus insert in one
call (`seen_urls` check-and-set). -/
def is_duplicate (h : String → String) (url : String) (seen : List String) :
    Bool × List String :=
  let url_hash := h url
  if url_hash ∈ seen then (true, seen) else (false, url_hash :: seen)

/-- RSSFetcher._process_feed_entries: skip entries with a falsy link or an
already-seen hash, build the article dict, keep it when it validates.
Returns the mutated seen set and the accepted articles (the Python function
itself returns None). -/
def process_feed_entries (h : String → String) (entries : List Entry)
    (feed_name now : String) (seen : List String) : List String × List Article :=
  match entries with
  | [] => (seen, [])
  | e :: rest =>
    match e.link with
    | none => process_feed_entries h rest feed_name now seen
    | some article_url =>
      if article_url = "" then process_feed_entries h rest feed_name now seen
      else
        let d := is_duplicate h article_url seen
        if d.1 then process_feed_entries h rest feed_name now d.2
        else
          let article := create_article_dict e feed_name now
          let tail := process_feed_entries h rest feed_name now d.2
          if validate_article (article_lookup article)
          then (tail.1, article :: tail.2)
          else (tail.1, tail.2)

/-- The HTTP outcome of `session.get` for one poll: a response with status,
caching headers and (parsed) body, or a raised transport exception. -/
inductive HttpOutcome
  | response (status : ℕ) (etag last_modified : String) (body : ParsedFeed)
  | raised

/-- RSSFetcher._log_activity with success=False: increments the failed-fetch
counter, then evaluates `logging.warning(...)`; rss_fetcher.py never imports
logging, so that line raises NameError after the increment. -/
def log_activity_failure (st : SysState) : SysState × PyError :=
  ({ st with failed_fetches := st.failed_fetches + 1 }, PyError.nameError)

/-- RSSFetcher._log_activity with success=True: increments the success counter
(the warning line sits in the failure branch only, so no NameError here). -/
def log_activity_success (st : SysState) : SysState :=
  { st with successful_fetches := st.successful_fetches + 1 }

/-- RSSFetcher.fetch_feed. 304 short-circuits to None; non-200 calls
`_log_activity(success=False)` inside the try block, whose NameError is caught
by the `except` handler, which calls `_log_activity(success=False)` again and
raises NameError out of the function (two counter increments); a transport
exception reaches the handler directly (one increment); 200 refreshes the
cached validators, logs success and returns the parsed feed. -/
def fetch_feed (feed_url : String) (o : HttpOutcome) (st : SysState) :
    Except PyError (Option ParsedFeed) × SysState :=
  match o with
  | HttpOutcome.raised =>
    let r := log_activity_failure st
    (Except.error r.2, r.1)
  | HttpOutcome.response status etag lm body =>
    if status = 304 then (Except.ok none, st)
    else if status ≠ 200 then
      let r1 := log_activity_failure st
      let r2 := log_activity_failure r1.1
      (Except.error r2.2, r2.1)
    else
      let st1 := { st with feed_state := setF st.feed_state feed_url (etag, lm) }
      (Except.ok (some body), log_activity_success st1)

/-- Pre-jitter backoff of `_process_failed_poll`:
`min(DEFAULT_FEED_INTERVAL * POLL_BACKOFF_FACTOR ** error_count, MAX_POLL_INTERVAL)`,
exact integer arithmetic as in Python. -/
def backoffPre (error_count : ℕ) : ℕ :=
  min (DEFAULT_FEED_INTERVAL * POLL_BACKOFF_FACTOR ^ error_count) MAX_POLL_INTERVAL

/-- FeedScheduler._update_feed_interval: store and reschedule only when the
current interval is missing, zero (falsy), or differs from the new one by more
than 60 seconds; the job is rescheduled only if one with the feed's name
exists. -/
def update_feed_interval (feed_name : String) (new_interval : ℚ) (st : SysState) :
    SysState :=
  let apply_update : SysState :=
    let st1 := { st with feed_intervals := setF st.feed_intervals feed_name new_interval }
    match st1.jobs feed_name with
    | some _ => { st1 with jobs := setF st1.jobs feed_name new_interval }
    | none => st1
  match st.feed_intervals feed_name with
  | none => apply_update
  | some c => if c = 0 ∨ |c - new_interval| > 60 then apply_update else st

/-- FeedScheduler._process_failed_poll: bump the error count, compute the
clamped exponential backoff, add the drawn jitter, route through
`_update_feed_interval`, then record the error status in the registry. -/
def process_failed_poll (feed_name : String) (jitter : ℚ) (now : String)
    (st : SysState) : SysState :=
  let error_count := (st.feed_errors feed_name).getD 0 + 1
  let st1 := { st with feed_errors := setF st.feed_errors feed_name error_count }
  let backoff : ℚ := (backoffPre error_count : ℚ) + jitter
  let st2 := update_feed_interval feed_name backoff st1
  { st2 with registry := st2.registry ++ [ RegUpdate.failure feed_name now error_count ] }

/-- FeedScheduler._calculate_server_interval from the advertised update
timestamp and the current wall clock. -/
def calculate_server_interval (updated now_time : ℚ) : Option ℚ :=
  if now_time - updated < 3600 then some (MIN_POLL_INTERVAL : ℚ)
  else if now_time - updated < 86400 then some 1800
  else none

/-- FeedScheduler._adjust_interval_based_on_activity: the raw
`len(feed_data.entries)` heuristic, overridden by the server hint when
`updated_parsed` is present and the hint is truthy; a proposal equal to the
current interval is dropped before `_update_feed_interval`. -/
def adjust_interval_based_on_activity (feed_name : String) (feed : ParsedFeed)
    (now_time : ℚ) (st : SysState) : SysState :=
  let current := (st.feed_intervals feed_name).getD (DEFAULT_FEED_INTERVAL : ℚ)
  let entry_count := feed.entries.length
  let new1 : ℚ :=
    if entry_count > 20 then max (current * (4 / 5)) (MIN_POLL_INTERVAL : ℚ)
    else if entry_count = 0 then min (current * (6 / 5)) (MAX_POLL_INTERVAL : ℚ)
    else current
  let new2 : ℚ :=
    match feed.updated_parsed with
    | some upd =>
      match calculate_server_interval upd now_time with
      | some s => if s = 0 then new1 else max s (MIN_POLL_INTERVAL : ℚ)
      | none => new1
    | none => new1
  if new2 = current then st else update_feed_interval feed_name new2 st

/-- The value of the Python expression `processed > 0` in
`_process_successful_poll`: `_process_feed_entries` has no return statement,
so `processed` is None and comparing None with an int raises TypeError. -/
def processed_gt_zero : Except PyError Bool :=
  Except.error PyError.typeError

/-- FeedScheduler._process_successful_poll: reset the error count; with a
nonempty entry list, run the entries through dedup and validation (persisting
and publishing the accepted ones), then evaluate `processed > 0` — which
raises TypeError, so the adjustment and registry branches below it are
unreachable. The second component is the exception escaping the call, if any. -/
def process_successful_poll (h : String → String) (feed_name now : String)
    (now_time : ℚ) (feed : ParsedFeed) (st : SysState) : SysState × Option PyError :=
  let st1 := { st with feed_errors := setF st.feed_errors feed_name 0 }
  match feed.entries with
  | [] => (st1, none)
  | _ :: _ =>
    let pr := process_feed_entries h feed.entries feed_name now st1.seen_urls
    let st2 := { st1 with
      seen_urls := pr.1
      published := if pr.2 = [] then st1.published else st1.published ++ pr.2 }
    match processed_gt_zero with
    | Except.error e => (st2, some e)
    | Except.ok b =>
      if b then
        let st3 := adjust_interval_based_on_activity feed_name feed now_time st2
        ({ st3 with registry := st3.registry ++ [ RegUpdate.success feed_name now ] }, none)
      else (st2, none)

/-- FeedScheduler._poll_single_feed: fetch, then the success handler when a
truthy non-bozo feed came back, otherwise the failure handler; any exception
raised inside the try block (NameError from the fetcher, TypeError from the
success handler) is caught and converted to the failure handler on the state
as already mutated. -/
def poll_single_feed (h : String → String) (feed_name feed_url now : String)
    (now_time jitter : ℚ) (o : HttpOutcome) (st : SysState) : SysState :=
  match fetch_feed feed_url o st with
  | (Except.error _, st1) => process_failed_poll feed_name jitter now st1
  | (Except.ok none, st1) => process_failed_poll feed_name jitter now st1
  | (Except.ok (some feed), st1) =>
    if feed.bozo then process_failed_poll feed_name jitter now st1
    else
      match process_successful_poll h feed_name now now_time feed st1 with
      | (st2, none) => st2
      | (st2, some _) => process_failed_poll feed_name jitter now st2

/-- A JSON value sitting in a feed-record field: a string, or a non-string
with the given Python truthiness. -/
inductive PyVal
  | str (s : String)
  | nonStr (truthy : Bool)
deriving DecidableEq

/-- Python truthiness of a field value. -/
def PyVal.truthy : PyVal → Bool
  | PyVal.str s => decide (s ≠ "")
  | PyVal.nonStr t => t

/-- One element of the parsed feeds.json array: either not a dict, or an
object with the optional fields FeedManager reads. -/
inductive RawEntry
  | nonDict
  | obj (name url : Option PyVal) (interval : Option ℚ) (priority : Option String)
      (last_updated : Option String) (error_count : Option ℕ) (active : Option Bool)
deriving DecidableEq

/-- A validated feed configuration after `_apply_defaults`. -/
structure Feed where
  name : String
  url : String
  interval : ℚ
  priority : String
  last_updated : Option String
  error_count : ℕ
  active : Bool
deriving DecidableEq

/-- FeedManager._validate_feed: must be a dict, name and url present and
truthy, and both strings. -/
def validate_feed : RawEntry → Bool
  | RawEntry.nonDict => false
  | RawEntry.obj name url _ _ _ _ _ =>
    (match name with
     | some v => v.truthy
     | none => false) &&
    (match url with
     | some v => v.truthy
     | none => false) &&
    (match name, url with
     | some (PyVal.str _), some (PyVal.str _) => true
     | _, _ => false)

/-- FeedManager._apply_defaults on an entry that passed validation. -/
def apply_defaults : RawEntry → Feed
  | RawEntry.obj (some (PyVal.str n)) (some (PyVal.str u)) interval priority lu ec active =>
    { name := n
      url := u
      interval := interval.getD (DEFAULT_FEED_INTERVAL : ℚ)
      priority := priority.getD "medium"
      last_updated := lu
      error_count := ec.getD 0
      active := active.getD true }
  | _ =>
    { name := ""
      url := ""
      interval := 0
      priority := ""
      last_updated := none
      error_count := 0
      active := false }

/-- The validation and (name, url) deduplication loop of load_feeds. -/
def load_valid (feeds : List RawEntry) (seen : List (String × String)) : List Feed :=
  match feeds with
  | [] => []
  | f :: rest =>
    if validate_feed f then
      let fd := apply_defaults f
      if (fd.name, fd.url) ∈ seen then load_valid rest seen
      else fd :: load_valid rest ((fd.name, fd.url) :: seen)
    else load_valid rest seen

/-- FeedManager cache fields set in __init__. -/
structure FMState where
  last_modified : ℚ
  cached_feeds : Option (List Feed)

/-- A fresh FeedManager (last_modified 0, no cache). -/
def initFM : FMState :=
  { last_modified := 0, cached_feeds := none }

/-- What json.load produced from the backing file. -/
inductive ParseResult
  | badJson
  | ok (feeds : List RawEntry)

/-- The observable condition of the backing file for one load_feeds call:
an OS-level error (getmtime or open raising), or readable content with its
modification time and parse outcome. -/
inductive Backing
  | ioError
  | content (mtime : ℚ) (data : ParseResult)

/-- FeedManager.load_feeds: cache hit (truthy cached list and unchanged
mtime) returns the cache; a JSONDecodeError or any other exception is caught
and an empty list returned; otherwise validate, deduplicate, apply defaults
and refresh the cache. -/
def load_feeds (fm : FMState) (b : Backing) : List Feed × FMState :=
  match b with
  | Backing.ioError => ([], fm)
  | Backing.content mtime data =>
    let cacheHit : Bool :=
      match fm.cached_feeds with
      | some cached => decide (cached ≠ []) && decide (mtime ≤ fm.last_modified)
      | none => false
    if cacheHit then (fm.cached_feeds.getD [], fm)
    else
      match data with
      | ParseResult.badJson => ([], fm)
      | ParseResult.ok feeds =>
        let validated := load_valid feeds []
        (validated, { last_modified := mtime, cached_feeds := some validated })

/-- The trace of return values of consecutive `_is_duplicate` calls starting
from the given seen set. -/
def dedupRun (h : String → String) (seen : List String) : List String → List Bool
  | [] => []
  | u :: us =>
    let d := is_duplicate h u seen
    d.1 :: dedupRun h d.2 us

/-- How many calls in the trace returned false for the identifier `x`
(the hash of the url passed to that call). -/
def falseCount (h : String → String) (seen : List String) (urls : List String)
    (x : String) : ℕ :=
  ((dedupRun h seen urls).zip urls).countP fun p => !p.1 && decide (h p.2 = x)

/-- The initial state of the whole process: empty dicts, zero counters,
empty seen set, nothing published, no registry writes. -/
def emptySys : SysState :=
  { feed_intervals := fun _ => none
    feed_errors := fun _ => none
    jobs := fun _ => none
    feed_state := fun _ => none
    successful_fetches := 0
    failed_fetches := 0
    seen_urls := []
    published := []
    registry := [] }

/-- An empty, well-formed parsed feed. -/
def pf0 : ParsedFeed :=
  { bozo := false, entries := [], updated_parsed := none }

lemma falseCount_from (h : String → String) (urls : List String) :
    ∀ (seen : List String) (x : String),
      falseCount h seen urls x =
        if x ∈ seen then 0 else if x ∈ urls.map h then 1 else 0 := by
  induction urls with
  | nil =>
    intro seen x
    simp [falseCount, dedupRun]
  | cons u us ih =>
    intro seen x
    by_cases hm : h u ∈ seen
    · have hrun : dedupRun h seen (u :: us) = true :: dedupRun h seen us := by
        simp [dedupRun, is_duplicate, hm]
      have : falseCount h seen (u :: us) x = falseCount h seen us x := by
        simp [falseCount, hrun, List.countP_cons]
      rw [this, ih seen x]
      by_cases hx : x ∈ seen
      · simp [hx]
      · have hxne : x ≠ h u := fun he => hx (he ▸ hm)
        simp [hx, List.mem_cons, hxne]
    · have hrun : dedupRun h seen (u :: us) = false :: dedupRun h (h u :: seen) us := by
        simp [dedupRun, is_duplicate, hm]
      have hstep : falseCount h seen (u :: us) x =
          falseCount h (h u :: seen) us x + if h u = x then 1 else 0 := by
        simp [falseCount, hrun, List.countP_cons]
      rw [hstep, ih (h u :: seen) x]
      by_cases hux : h u = x
      · subst hux
        simp [hm, List.mem_cons]
      · have hxu : ¬ (x = h u) := fun he => hux he.symm
        by_cases hx : x ∈ seen
        · simp [hux, hxu, hx]
        · simp [hux, hxu, hx]

/-- C6: over the process lifetime (seen set starts empty), `_is_duplicate`
returns false exactly once per distinct identifier that occurs among the
hashed urls and never for any other identifier; each call inserts the hash of
its argument as a side effect, and a repeat call with the same url always
returns true. -/
theorem claim6_dedup_once (h : String → String) (urls : List String) (x : String) :
    falseCount h [] urls x = (if x ∈ urls.map h then 1 else 0) ∧
    (∀ (seen : List String) (u : String), h u ∈ (is_duplicate h u seen).2) ∧
    (∀ (seen : List String) (u : String),
      (is_duplicate h u (is_duplicate h u seen).2).1 = true) := by
  refine ⟨?_, ?_, ?_⟩
  · rw [falseCount_from h urls [] x]
    simp
  · intro seen u
    by_cases hm : h u ∈ seen <;> simp [is_duplicate, hm]
  · intro seen u
    by_cases hm : h u ∈ seen <;> simp [is_duplicate, hm]

/-- C8: a malformed backing file — an OS error while reading, or content that
json.load rejects — makes load_feeds return the empty list instead of
propagating the exception. -/
theorem claim8_load_soft_fail (fm : FMState) (mtime : ℚ) :
    (load_feeds fm Backing.ioError).1 = [] ∧
    (load_feeds initFM (Backing.content mtime ParseResult.badJson)).1 = [] := by
  exact ⟨rfl, rfl⟩

/-- C9: what fetch_feed actually produces per case. A 304 returns None and a
200 returns the parsed feed, but a non-200 status and a raised transport
exception do not return None: both raise NameError out of the function,
because rss_fetcher.py calls logging.warning without importing logging. The
non-200 path furthermore bumps the failed-fetch counter twice (once in the
try block, once in the except handler). -/
theorem claim9_fetch_return_values :
    (fetch_feed "u" (HttpOutcome.response 304 "e" "m" pf0) emptySys).1 = Except.ok none ∧
    (fetch_feed "u" (HttpOutcome.response 500 "e" "m" pf0) emptySys).1 =
      Except.error PyError.nameError ∧
    (fetch_feed "u" HttpOutcome.raised emptySys).1 = Except.error PyError.nameError ∧
    (fetch_feed "u" (HttpOutcome.response 200 "e" "m" pf0) emptySys).1 =
      Except.ok (some pf0) ∧
    (fetch_feed "u" (HttpOutcome.response 500 "e" "m" pf0) emptySys).2.failed_fetches = 2 := by
  exact ⟨rfl, rfl, rfl, rfl, rfl⟩

/-- C10: on an article built by `_create_article_dict`, validation passes
exactly when the entry's title, link and published values default to nonempty
strings; the summary value is irrelevant. An entry with no published date
yields the empty string and is always rejected. -/
theorem claim10_validate_required_fields (e : Entry) (feed_name now : String) :
    (validate_article (article_lookup (create_article_dict e feed_name now)) = true ↔
      e.title.getD "" ≠ "" ∧ e.link.getD "" ≠ "" ∧ e.published.getD "" ≠ "") ∧
    (∀ s : Option String,
      validate_article (article_lookup (create_article_dict { e with summary := s } feed_name now)) =
        validate_article (article_lookup (create_article_dict e feed_name now))) := by
  constructor
  · simp [validate_article, article_lookup, create_article_dict]
  · intro s
    simp [validate_article, article_lookup, create_article_dict]

/-- State of a source sitting at the cap: interval 86400 reached after
repeated failures, five consecutive errors so far, live job at 86400. -/
def c1state : SysState :=
  { emptySys with
    feed_intervals := fun x => if x = "f" then some 86400 else none
    feed_errors := fun x => if x = "f" then some 5 else none
    jobs := fun x => if x = "f" then some 86400 else none }

/-- A fresh source at the default interval with no recorded errors. -/
def c7state : SysState :=
  { emptySys with
    feed_intervals := fun x => if x = "f" then some 3600 else none
    feed_errors := fun x => if x = "f" then some 0 else none
    jobs := fun x => if x = "f" then some 3600 else none }

lemma update_feed_interval_feed_errors (n : String) (v : ℚ) (st : SysState) :
    (update_feed_interval n v st).feed_errors = st.feed_errors := by
  unfold update_feed_interval
  dsimp only
  split
  · split <;> rfl
  · split
    · split <;> rfl
    · rfl

lemma update_feed_interval_registry (n : String) (v : ℚ) (st : SysState) :
    (update_feed_interval n v st).registry = st.registry := by
  unfold update_feed_interval
  dsimp only
  split
  · split <;> rfl
  · split
    · split <;> rfl
    · rfl

lemma process_failed_poll_feed_errors (n : String) (j : ℚ) (now : String)
    (st : SysState) :
    (process_failed_poll n j now st).feed_errors n =
      some ((st.feed_errors n).getD 0 + 1) := by
  unfold process_failed_poll
  dsimp only
  rw [update_feed_interval_feed_errors]
  simp [setF]

lemma iterated_failures_error_count (j : ℚ) (now : String) :
    ∀ k : ℕ, ((process_failed_poll "f" j now)^[k] c7state).feed_errors "f" = some k := by
  intro k
  induction k with
  | zero => rfl
  | succ m ih =>
    rw [Function.iterate_succ_apply', process_failed_poll_feed_errors, ih]
    rfl

/-- C7: with DEFAULT_INTERVAL 3600, FACTOR 2, MAX 86400, 30 consecutive
failures of a fresh source drive its error count to exactly 30, and the
pre-jitter backoff computed at error count 30 is exactly 86400: the
exponential 3600 * 2 ^ 30 is clamped by the min against MAX_POLL_INTERVAL,
in exact (arbitrary-precision) integer arithmetic. -/
theorem claim7_backoff_capped :
    ((process_failed_poll "f" 0 "t")^[30] c7state).feed_errors "f" = some 30 ∧
    backoffPre 30 = 86400 ∧
    3600 * 2 ^ 30 = 3865470566400 := by
  refine ⟨iterated_failures_error_count 0 "t" 30, by decide, by norm_num⟩

lemma update_feed_interval_of_none (n : String) (v : ℚ) (st : SysState)
    (hI : st.feed_intervals n = none) :
    (update_feed_interval n v st).feed_intervals n = some v := by
  unfold update_feed_interval
  dsimp only
  split
  · split <;> simp [setF]
  · simp_all

lemma update_feed_interval_of_pass (n : String) (v : ℚ) (st : SysState) (c : ℚ)
    (hI : st.feed_intervals n = some c) (hg : c = 0 ∨ |c - v| > 60) :
    (update_feed_interval n v st).feed_intervals n = some v ∧
    (∀ jv : ℚ, st.jobs n = some jv → (update_feed_interval n v st).jobs n = some v) ∧
    (st.jobs n = none → (update_feed_interval n v st).jobs = st.jobs) := by
  unfold update_feed_interval
  dsimp only
  split
  · simp_all
  · rename_i c' heq
    rw [hI] at heq
    obtain rfl : c = c' := Option.some.inj heq
    rw [if_pos hg]
    refine ⟨?_, ?_, ?_⟩
    · split <;> simp [setF]
    · intro jv hj
      split <;> simp_all [setF]
    · intro hj
      split <;> simp_all [setF]

lemma update_feed_interval_of_block (n : String) (v : ℚ) (st : SysState) (c : ℚ)
    (hI : st.feed_intervals n = some c) (h0 : c ≠ 0) (hd : |c - v| ≤ 60) :
    update_feed_interval n v st = st := by
  have hneg : ¬ (c = 0 ∨ |c - v| > 60) := by
    rintro (hc | hc)
    · exact h0 hc
    · exact absurd hc (not_lt.mpr hd)
  unfold update_feed_interval
  dsimp only
  split
  · simp_all
  · rename_i c' heq
    rw [hI] at heq
    obtain rfl : c = c' := Option.some.inj heq
    rw [if_neg hneg]

lemma update_feed_interval_intervals_cases (n : String) (v : ℚ) (st : SysState) :
    (update_feed_interval n v st).feed_intervals n = some v ∨
    update_feed_interval n v st = st := by
  unfold update_feed_interval
  dsimp only
  split
  · left
    split <;> simp [setF]
  · split
    · left
      split <;> simp [setF]
    · right
      rfl

/-- C1 (amended): every failed poll increments the source's errorCount by 1
and computes backoff as the clamped exponential plus the drawn jitter, but it
stores and reschedules that backoff only through the hysteresis gate of
`_update_feed_interval`: when the current interval is missing or zero, or
differs from the backoff by more than 60 seconds. When the gate blocks, the
stored interval and the job table are left untouched. -/
theorem claim1_amended (st : SysState) (feed_name now : String) (jitter : ℚ) :
    (process_failed_poll feed_name jitter now st).feed_errors feed_name =
      some ((st.feed_errors feed_name).getD 0 + 1) ∧
    (st.feed_intervals feed_name = none →
      (process_failed_poll feed_name jitter now st).feed_intervals feed_name =
        some ((backoffPre ((st.feed_errors feed_name).getD 0 + 1) : ℚ) + jitter)) ∧
    (∀ c : ℚ, st.feed_intervals feed_name = some c →
      ((c = 0 ∨ |c - ((backoffPre ((st.feed_errors feed_name).getD 0 + 1) : ℚ) + jitter)| > 60 →
        (process_failed_poll feed_name jitter now st).feed_intervals feed_name =
          some ((backoffPre ((st.feed_errors feed_name).getD 0 + 1) : ℚ) + jitter) ∧
        (∀ jv : ℚ, st.jobs feed_name = some jv →
          (process_failed_poll feed_name jitter now st).jobs feed_name =
            some ((backoffPre ((st.feed_errors feed_name).getD 0 + 1) : ℚ) + jitter))) ∧
      (c ≠ 0 → |c - ((backoffPre ((st.feed_errors feed_name).getD 0 + 1) : ℚ) + jitter)| ≤ 60 →
        (process_failed_poll feed_name jitter now st).feed_intervals feed_name = some c ∧
        (process_failed_poll feed_name jitter now st).jobs = st.jobs))) := by
  refine ⟨process_failed_poll_feed_errors feed_name jitter now st, ?_, ?_⟩
  · intro hI
    exact update_feed_interval_of_none feed_name
      ((backoffPre ((st.feed_errors feed_name).getD 0 + 1) : ℚ) + jitter)
      { st with feed_errors := setF st.feed_errors feed_name ((st.feed_errors feed_name).getD 0 + 1) }
      hI
  · intro c hc
    constructor
    · intro hg
      have uf := update_feed_interval_of_pass feed_name
        ((backoffPre ((st.feed_errors feed_name).getD 0 + 1) : ℚ) + jitter)
        { st with feed_errors := setF st.feed_errors feed_name ((st.feed_errors feed_name).getD 0 + 1) }
        c hc hg
      exact ⟨uf.1, fun jv hj => uf.2.1 jv hj⟩
    · intro h0 hd
      have uf := update_feed_interval_of_block feed_name
        ((backoffPre ((st.feed_errors feed_name).getD 0 + 1) : ℚ) + jitter)
        { st with feed_errors := setF st.feed_errors feed_name ((st.feed_errors feed_name).getD 0 + 1) }
        c hc h0 hd
      constructor
      · show (update_feed_interval feed_name
            ((backoffPre ((st.feed_errors feed_name).getD 0 + 1) : ℚ) + jitter)
            { st with feed_errors := setF st.feed_errors feed_name ((st.feed_errors feed_name).getD 0 + 1) }).feed_intervals
            feed_name = some c
        rw [uf]
        exact hc
      · show (update_feed_interval feed_name
            ((backoffPre ((st.feed_errors feed_name).getD 0 + 1) : ℚ) + jitter)
            { st with feed_errors := setF st.feed_errors feed_name ((st.feed_errors feed_name).getD 0 + 1) }).jobs = st.jobs
        rw [uf]

/-- C1 counterexample: a source whose interval already sits at the cap 86400
with five consecutive errors fails again with jitter 20. The backoff computes
to 86420, yet the job is not rescheduled and the stored interval stays 86400:
the failure path is gated by the same 60-second hysteresis as the success
path, so the claim that every failure is always rescheduled to the computed
backoff is false at this input. -/
theorem claim1_counterexample :
    (process_failed_poll "f" 20 "t" c1state).feed_errors "f" = some 6 ∧
    (backoffPre 6 : ℚ) + 20 = 86420 ∧
    (process_failed_poll "f" 20 "t" c1state).feed_intervals "f" = some 86400 ∧
    (process_failed_poll "f" 20 "t" c1state).jobs "f" = some 86400 ∧
    (86400 : ℚ) ≠ 86420 := by
  norm_num [process_failed_poll, update_feed_interval, backoffPre, setF, c1state, emptySys,
    DEFAULT_FEED_INTERVAL, MAX_POLL_INTERVAL, POLL_BACKOFF_FACTOR]

/-- Closed instance discharging claim1_amended's hypotheses: a source with no
stored interval gets the full backoff applied. -/
theorem claim1_amended_witness :
    emptySys.feed_intervals "g" = none ∧
    (process_failed_poll "g" 0 "t" emptySys).feed_intervals "g" =
      some ((backoffPre ((emptySys.feed_errors "g").getD 0 + 1) : ℚ) + 0) :=
  ⟨rfl, (claim1_amended emptySys "g" "t" 0).2.1 rfl⟩

/-- A healthy source with cached validators for its url: interval 3600, no
errors, live job, etag and last-modified stored from the previous 200. -/
def c2state : SysState :=
  { emptySys with
    feed_intervals := fun x => if x = "f" then some 3600 else none
    feed_errors := fun x => if x = "f" then some 0 else none
    jobs := fun x => if x = "f" then some 3600 else none
    feed_state := fun u => if u = "u" then some ("etag0", "lm0") else none }

/-- C2 evaluation: polling a source that answers 304 Not Modified runs the
failure path: errorCount goes 0 to 1, the interval is backed off from 3600 to
7207 (7200 plus jitter 7) and the job rescheduled, an error status is written
to the registry, and the cached validators are not refreshed with the new
response headers. -/
theorem claim2_not_modified_backs_off :
    (poll_single_feed id "f" "u" "t" 0 7 (HttpOutcome.response 304 "etag1" "lm1" pf0)
      c2state).feed_errors "f" = some 1 ∧
    (poll_single_feed id "f" "u" "t" 0 7 (HttpOutcome.response 304 "etag1" "lm1" pf0)
      c2state).feed_intervals "f" = some 7207 ∧
    (poll_single_feed id "f" "u" "t" 0 7 (HttpOutcome.response 304 "etag1" "lm1" pf0)
      c2state).jobs "f" = some 7207 ∧
    (poll_single_feed id "f" "u" "t" 0 7 (HttpOutcome.response 304 "etag1" "lm1" pf0)
      c2state).feed_state "u" = some ("etag0", "lm0") ∧
    (poll_single_feed id "f" "u" "t" 0 7 (HttpOutcome.response 304 "etag1" "lm1" pf0)
      c2state).registry = [ RegUpdate.failure "f" "t" 1 ] := by
  norm_num [poll_single_feed, fetch_feed, process_failed_poll, update_feed_interval,
    backoffPre, setF, c2state, emptySys, DEFAULT_FEED_INTERVAL, MAX_POLL_INTERVAL,
    POLL_BACKOFF_FACTOR]

/-- An entry with a link and a title but no published date: it passes the
link check and deduplication, then fails validation. -/
def e3x : Entry :=
  { title := some "t", link := some "u", published := none, summary := none,
    description := none }

/-- A fetch result with 21 raw entries, none of which is accepted (the first
fails validation, the rest are duplicates of its link). -/
def feed21 : ParsedFeed :=
  { bozo := false, entries := List.replicate 21 e3x, updated_parsed := none }

/-- A source at interval 3600 with a live job and no stored errors. -/
def c3state : SysState :=
  { emptySys with
    feed_intervals := fun x => if x = "f" then some 3600 else none
    jobs := fun x => if x = "f" then some 3600 else none }

/-- C3 counterexample: a poll returning 21 raw entries of which 0 are
accepted. Were the adaptation driven by the accepted count (0), it would
propose min(3600 * 1.2, 86400) = 4320; the code instead reads
len(feed_data.entries) = 21 > 20 and speeds up to max(3600 * 0.8, 300) =
2880, so the accepted-count reading of the claim is false at this input. -/
theorem claim3_counterexample :
    (process_feed_entries id feed21.entries "f" "t" []).2 = [] ∧
    (adjust_interval_based_on_activity "f" feed21 0 c3state).feed_intervals "f" =
      some 2880 ∧
    (2880 : ℚ) ≠ 4320 := by
  refine ⟨by decide, ?_, by norm_num⟩
  norm_num [adjust_interval_based_on_activity, update_feed_interval, feed21, setF,
    c3state, emptySys, DEFAULT_FEED_INTERVAL, MIN_POLL_INTERVAL, MAX_POLL_INTERVAL]

/-- C3 (amended): the interval-adaptation decision depends only on the raw
number of fetched entries (and the server freshness hint), not on which
entries pass deduplication and validation: two fetch results with the same
raw length and the same updated_parsed value adapt identically, whatever
their accepted counts. -/
theorem claim3_amended (st : SysState) (feed_name : String) (now_time : ℚ)
    (feed1 feed2 : ParsedFeed)
    (hlen : feed1.entries.length = feed2.entries.length)
    (hupd : feed1.updated_parsed = feed2.updated_parsed) :
    adjust_interval_based_on_activity feed_name feed1 now_time st =
      adjust_interval_based_on_activity feed_name feed2 now_time st := by
  unfold adjust_interval_based_on_activity
  rw [hlen, hupd]

/-- A one-entry feed whose entry is accepted (all fields present). -/
def feedW1 : ParsedFeed :=
  { bozo := false
    entries := [ { title := some "a", link := some "l", published := some "p",
                   summary := some "s", description := none } ]
    updated_parsed := none }

/-- A one-entry feed whose entry is rejected (no published date). -/
def feedW2 : ParsedFeed :=
  { bozo := false, entries := [ e3x ], updated_parsed := none }

/-- Closed instance discharging claim3_amended's hypotheses: a feed with one
accepted entry and a feed with one rejected entry adapt identically. -/
theorem claim3_amended_witness :
    feedW1.entries.length = feedW2.entries.length ∧
    feedW1.updated_parsed = feedW2.updated_parsed ∧
    adjust_interval_based_on_activity "f" feedW1 0 c3state =
      adjust_interval_based_on_activity "f" feedW2 0 c3state :=
  ⟨rfl, rfl, claim3_amended c3state "f" 0 feedW1 feedW2 rfl rfl⟩

/-- A source at interval 3600 with three recorded errors and a live job. -/
def c4state : SysState :=
  { emptySys with
    feed_intervals := fun x => if x = "f" then some 3600 else none
    feed_errors := fun x => if x = "f" then some 3 else none
    jobs := fun x => if x = "f" then some 3600 else none }

/-- C4 evaluation: a successful poll (HTTP 200, well-formed feed) returning
zero entries resets errorCount to 0, but everything else the claim requires
does not happen: no lastSuccess is written to the registry, the interval
stays 3600 instead of being proposed as 4320, and the job is not rescheduled
— the entries-nonempty guard in _process_successful_poll skips both the
interval adjustment and the registry update. -/
theorem claim4_zero_entries_eval :
    (poll_single_feed id "f" "u" "t" 0 0 (HttpOutcome.response 200 "e" "m" pf0)
      c4state).feed_errors "f" = some 0 ∧
    (poll_single_feed id "f" "u" "t" 0 0 (HttpOutcome.response 200 "e" "m" pf0)
      c4state).feed_intervals "f" = some 3600 ∧
    (poll_single_feed id "f" "u" "t" 0 0 (HttpOutcome.response 200 "e" "m" pf0)
      c4state).jobs "f" = some 3600 ∧
    (poll_single_feed id "f" "u" "t" 0 0 (HttpOutcome.response 200 "e" "m" pf0)
      c4state).registry = [] ∧
    (4320 : ℚ) ≠ 3600 := by
  refine ⟨rfl, rfl, rfl, rfl, by norm_num⟩

/-- A source at interval 3600 with five recorded errors and a live job. -/
def c5state : SysState :=
  { emptySys with
    feed_intervals := fun x => if x = "f" then some 3600 else none
    feed_errors := fun x => if x = "f" then some 5 else none
    jobs := fun x => if x = "f" then some 3600 else none }

/-- C5 counterexample: the sixth consecutive failure with jitter 10 applies
interval min(3600 * 2 ^ 6, 86400) + 10 = 86410 to the stored interval and the
job — outside [300, 86400], because the jitter is added after the clamp. -/
theorem claim5_counterexample :
    (0 : ℚ) ≤ 10 ∧ (10 : ℚ) < 30 ∧
    (process_failed_poll "f" 10 "t" c5state).feed_intervals "f" = some 86410 ∧
    (process_failed_poll "f" 10 "t" c5state).jobs "f" = some 86410 ∧
    ¬ ((86410 : ℚ) ≤ 86400) := by
  norm_num [process_failed_poll, update_feed_interval, backoffPre, setF, c5state,
    emptySys, DEFAULT_FEED_INTERVAL, MAX_POLL_INTERVAL, POLL_BACKOFF_FACTOR]

lemma backoffPre_lower (n : ℕ) : 7200 ≤ backoffPre (n + 1) := by
  unfold backoffPre DEFAULT_FEED_INTERVAL POLL_BACKOFF_FACTOR MAX_POLL_INTERVAL
  refine le_min ?_ (by norm_num)
  have h2 : (2 : ℕ) ≤ 2 ^ (n + 1) := by
    calc (2 : ℕ) = 2 ^ 1 := by norm_num
    _ ≤ 2 ^ (n + 1) := Nat.pow_le_pow_right (by norm_num) (Nat.succ_le_succ (Nat.zero_le n))
  calc (7200 : ℕ) = 3600 * 2 := by norm_num
  _ ≤ 3600 * 2 ^ (n + 1) := mul_le_mul_left' h2 3600

lemma backoffPre_upper (e : ℕ) : backoffPre e ≤ 86400 := by
  unfold backoffPre MAX_POLL_INTERVAL
  exact min_le_right _ _

lemma calculate_server_interval_values (u t s : ℚ)
    (h : calculate_server_interval u t = some s) : s = 300 ∨ s = 1800 := by
  unfold calculate_server_interval at h
  split_ifs at h
  · left
    have := Option.some.inj h
    rw [← this]
    norm_num [MIN_POLL_INTERVAL]
  · right
    exact (Option.some.inj h).symm

lemma adjust_shape (feed_name : String) (feed : ParsedFeed) (t : ℚ) (st : SysState)
    (h300 : 300 ≤ (st.feed_intervals feed_name).getD (DEFAULT_FEED_INTERVAL : ℚ))
    (h864 : (st.feed_intervals feed_name).getD (DEFAULT_FEED_INTERVAL : ℚ) ≤ 86400) :
    adjust_interval_based_on_activity feed_name feed t st = st ∨
      ∃ v : ℚ, 300 ≤ v ∧ v ≤ 86400 ∧
        adjust_interval_based_on_activity feed_name feed t st =
          update_feed_interval feed_name v st := by
  unfold adjust_interval_based_on_activity
  dsimp only
  set current := (st.feed_intervals feed_name).getD (DEFAULT_FEED_INTERVAL : ℚ)
  have key : ∀ v : ℚ, 300 ≤ v → v ≤ 86400 →
      ((if v = current then st else update_feed_interval feed_name v st) = st ∨
        ∃ w : ℚ, 300 ≤ w ∧ w ≤ 86400 ∧
          (if v = current then st else update_feed_interval feed_name v st) =
            update_feed_interval feed_name w st) := by
    intro v hv1 hv2
    split_ifs
    · exact Or.inl rfl
    · exact Or.inr ⟨v, hv1, hv2, rfl⟩
  have hmin : ((MIN_POLL_INTERVAL : ℚ)) = 300 := by norm_num [MIN_POLL_INTERVAL]
  have hmax : ((MAX_POLL_INTERVAL : ℚ)) = 86400 := by norm_num [MAX_POLL_INTERVAL]
  have hb1 : 300 ≤ (if feed.entries.length > 20 then
        max (current * (4 / 5)) (MIN_POLL_INTERVAL : ℚ)
      else if feed.entries.length = 0 then
        min (current * (6 / 5)) (MAX_POLL_INTERVAL : ℚ)
      else current) ∧
      (if feed.entries.length > 20 then
        max (current * (4 / 5)) (MIN_POLL_INTERVAL : ℚ)
      else if feed.entries.length = 0 then
        min (current * (6 / 5)) (MAX_POLL_INTERVAL : ℚ)
      else current) ≤ 86400 := by
    split_ifs with h1 h2
    · constructor
      · rw [hmin]
        exact le_max_right _ _
      · refine max_le (by linarith) (by rw [hmin]; norm_num)
    · constructor
      · refine le_min (by linarith) (by rw [hmax]; norm_num)
      · rw [hmax]
        exact min_le_right _ _
    · exact ⟨h300, h864⟩
  cases hupd : feed.updated_parsed with
  | none =>
    simp only [hupd]
    exact key _ hb1.1 hb1.2
  | some upd =>
    simp only [hupd]
    cases hs : calculate_server_interval upd t with
    | none =>
      simp only [hs]
      exact key _ hb1.1 hb1.2
    | some s =>
      simp only [hs]
      rcases calculate_server_interval_values upd t s hs with rfl | rfl
      · rw [if_neg (by norm_num : ¬ (300 : ℚ) = 0)]
        refine key _ ?_ ?_
        · rw [hmin]
          exact le_max_left _ _
        · exact max_le (by norm_num) (by rw [hmin]; norm_num)
      · rw [if_neg (by norm_num : ¬ (1800 : ℚ) = 0)]
        refine key _ ?_ ?_
        · exact le_trans (by norm_num) (le_max_left _ _)
        · exact max_le (by norm_num) (by rw [hmin]; norm_num)

/-- C5 (amended): the failure path applies min(3600 * 2 ^ errorCount, 86400)
plus jitter, which lies in [300, 86430) — jitter is added after the clamp, so
the applied interval can exceed MAX_INTERVAL by up to JITTER_SECONDS; the
success-adaptation and server-hint paths keep any newly stored interval
within [300, 86400] whenever the source's current interval is within those
bounds. -/
theorem claim5_amended :
    (∀ (st : SysState) (feed_name now : String) (jitter c : ℚ),
      0 ≤ jitter → jitter < 30 →
      (process_failed_poll feed_name jitter now st).feed_intervals feed_name = some c →
      ((300 ≤ c ∧ c < 86430) ∨ st.feed_intervals feed_name = some c)) ∧
    (∀ (st : SysState) (feed_name : String) (feed : ParsedFeed) (t : ℚ),
      (∀ c0 : ℚ, st.feed_intervals feed_name = some c0 → 300 ≤ c0 ∧ c0 ≤ 86400) →
      ∀ c : ℚ,
        (adjust_interval_based_on_activity feed_name feed t st).feed_intervals feed_name =
          some c →
        300 ≤ c ∧ c ≤ 86400) := by
  constructor
  · intro st feed_name now jitter c hj0 hj30 hres
    have hres' : (update_feed_interval feed_name
        ((backoffPre ((st.feed_errors feed_name).getD 0 + 1) : ℚ) + jitter)
        { st with feed_errors := setF st.feed_errors feed_name ((st.feed_errors feed_name).getD 0 + 1) }).feed_intervals
        feed_name = some c := hres
    rcases update_feed_interval_intervals_cases feed_name
        ((backoffPre ((st.feed_errors feed_name).getD 0 + 1) : ℚ) + jitter)
        { st with feed_errors := setF st.feed_errors feed_name ((st.feed_errors feed_name).getD 0 + 1) }
        with hcase | hcase
    · obtain rfl : (backoffPre ((st.feed_errors feed_name).getD 0 + 1) : ℚ) + jitter = c :=
        Option.some.inj (hcase.symm.trans hres')
      left
      have l1 : (7200 : ℚ) ≤ (backoffPre ((st.feed_errors feed_name).getD 0 + 1) : ℚ) := by
        exact_mod_cast backoffPre_lower ((st.feed_errors feed_name).getD 0)
      have l2 : (backoffPre ((st.feed_errors feed_name).getD 0 + 1) : ℚ) ≤ 86400 := by
        exact_mod_cast backoffPre_upper ((st.feed_errors feed_name).getD 0 + 1)
      constructor
      · linarith
      · linarith
    · rw [hcase] at hres'
      exact Or.inr hres'
  · intro st feed_name feed t hB c hres
    have h300 : 300 ≤ (st.feed_intervals feed_name).getD (DEFAULT_FEED_INTERVAL : ℚ) := by
      cases hI : st.feed_intervals feed_name with
      | none =>
        simp only [Option.getD_none]
        norm_num [DEFAULT_FEED_INTERVAL]
      | some c0 =>
        simp only [Option.getD_some]
        exact (hB c0 hI).1
    have h864 : (st.feed_intervals feed_name).getD (DEFAULT_FEED_INTERVAL : ℚ) ≤ 86400 := by
      cases hI : st.feed_intervals feed_name with
      | none =>
        simp only [Option.getD_none]
        norm_num [DEFAULT_FEED_INTERVAL]
      | some c0 =>
        simp only [Option.getD_some]
        exact (hB c0 hI).2
    rcases adjust_shape feed_name feed t st h300 h864 with heq | ⟨v, hv1, hv2, heq⟩
    · rw [heq] at hres
      exact hB c hres
    · rw [heq] at hres
      rcases update_feed_interval_intervals_cases feed_name v st with hcase | hcase
      · obtain rfl : v = c := Option.some.inj (hcase.symm.trans hres)
        exact ⟨hv1, hv2⟩
      · rw [hcase] at hres
        exact hB c hres

/-- Closed instance discharging claim5_amended's hypotheses on both paths:
the sixth failure with jitter 10 applies 86410 (within the amended bound but
above MAX_INTERVAL), and a zero-entry adaptation from 3600 applies 4320,
inside [300, 86400]. -/
theorem claim5_amended_witness :
    ((0 : ℚ) ≤ 10 ∧ (10 : ℚ) < 30 ∧
      (process_failed_poll "f" 10 "t" c5state).feed_intervals "f" = some 86410 ∧
      (((300 : ℚ) ≤ 86410 ∧ (86410 : ℚ) < 86430) ∨
        c5state.feed_intervals "f" = some 86410)) ∧
    ((∀ c0 : ℚ, c3state.feed_intervals "f" = some c0 → 300 ≤ c0 ∧ c0 ≤ 86400) ∧
      (adjust_interval_based_on_activity "f" pf0 0 c3state).feed_intervals "f" =
        some 4320 ∧
      (300 : ℚ) ≤ 4320 ∧ (4320 : ℚ) ≤ 86400) := by
  have hres : (process_failed_poll "f" 10 "t" c5state).feed_intervals "f" = some 86410 := by
    norm_num [process_failed_poll, update_feed_interval, backoffPre, setF, c5state,
      emptySys, DEFAULT_FEED_INTERVAL, MAX_POLL_INTERVAL, POLL_BACKOFF_FACTOR]
  have hB : ∀ c0 : ℚ, c3state.feed_intervals "f" = some c0 → 300 ≤ c0 ∧ c0 ≤ 86400 := by
    intro c0 h0
    have h0' : some (3600 : ℚ) = some c0 := h0
    obtain rfl : (3600 : ℚ) = c0 := Option.some.inj h0'
    norm_num
  have hadj : (adjust_interval_based_on_activity "f" pf0 0 c3state).feed_intervals "f" =
      some 4320 := by
    norm_num [adjust_interval_based_on_activity, update_feed_interval, pf0, setF, c3state,
      emptySys, DEFAULT_FEED_INTERVAL, MIN_POLL_INTERVAL, MAX_POLL_INTERVAL]
  refine ⟨⟨by norm_num, by norm_num, hres, ?_⟩, hB, hadj, ?_⟩
  · exact claim5_amended.1 c5state "f" "t" 10 86410 (by norm_num) (by norm_num) hres
  · exact claim5_amended.2 c3state "f" pf0 0 hB 4320 hadj

end RssFeeder
